import Mathlib

set_option linter.unusedVariables false

/-!
Shallow embedding of `src/thirdparty/lambdasoc/cores/litedram.py`.

The file embeds, in order: the Python exception kinds used by the module, the
numeric helpers the module imports (`log2_int` from nmigen, `int(s, 16)` /
`int(s, 10)` from CPython, bitwise and on naturals), the memory-map and bus
types the module imports from the vendored `thirdparty.nmigen_soc` package
(whose sources are not part of this tree, so they are modelled from the spec),
and then the module's own classes: `Config`, `NativePort`, `Core`, `Builder`.

Python's dynamic state is passed explicitly: methods that mutate `self` return
an updated copy inside `Except Err`, and methods that raise return `.error`.
`isinstance` guards whose argument is statically typed in this embedding
(e.g. `isinstance(module_name, str)` for a `String` field) are necessarily
true and are noted in comments rather than encoded.
-/

/-- Err models the Python exception kinds raised by the embedded code:
`TypeError`, `ValueError`, `AttributeError`, `AssertionError` (from a bare
`assert`), `IndexError` (string subscript out of range) and `OSError`
(missing build product). The spec's error taxonomy maps onto these:
ConfigurationError / DimensionMismatchError / NameConflictError /
CsrParseError are `ValueError`s, NotReadyError is an `AttributeError`,
InternalInconsistencyError is an `AssertionError`. -/
inductive Err where
  | typeError (msg : String)
  | valueError (msg : String)
  | attributeError (msg : String)
  | assertionError
  | indexError (msg : String)
  | osError (msg : String)
  deriving DecidableEq, Repr

/-- pyReprStr models CPython's `repr` of a `str`, as used by the `{!r}`
format conversions in the source's error messages. -/
def pyReprStr (s : String) : String := "'" ++ s ++ "'"

/-- bitLenAux is a fuel-driven computation of `n.bit_length()`; the fuel is
structurally decreasing so that the kernel can evaluate it. -/
def bitLenAux : Nat → Nat → Nat
  | 0, _ => 0
  | fuel + 1, n => if n = 0 then 0 else bitLenAux fuel (n / 2) + 1

/-- bit_length models CPython's `int.bit_length()` for natural numbers: the
number of binary digits of `n`, with `bit_length 0 = 0`. -/
def bit_length (n : Nat) : Nat := bitLenAux n n

/-- natLandAux is a fuel-driven bitwise and; the fuel bounds the number of
bits of the first argument that are inspected. -/
def natLandAux : Nat → Nat → Nat → Nat
  | 0, _, _ => 0
  | fuel + 1, n, m =>
    if n = 0 then 0
    else (if n % 2 = 1 ∧ m % 2 = 1 then 1 else 0) + 2 * natLandAux fuel (n / 2) (m / 2)

/-- natLand models Python's `&` (bitwise and) on the natural numbers used by
this module; `n` itself is enough fuel since `n` has at most `n` bits. -/
def natLand (n m : Nat) : Nat := natLandAux n n m

/-- log2IntMsg is the message of the `ValueError` raised by nmigen's
`log2_int` on a non-power-of-two argument. -/
def log2IntMsg (n : Nat) : String := toString n ++ " is not a power of 2"

/-- log2_int models `nmigen.utils.log2_int(n)` (with its default
`need_pow2=True`): returns 0 for 0, the exact base-2 logarithm for powers of
two, and raises `ValueError` otherwise. nmigen is an external dependency of
the source module; this is its documented behaviour. -/
def log2_int (n : Nat) : Except Err Nat :=
  if n = 0 then .ok 0
  else
    let r := bit_length (n - 1)
    if 2 ^ r = n then .ok r else .error (.valueError (log2IntMsg n))

/-- hexDigitVal gives the value of one hexadecimal digit character. -/
def hexDigitVal (c : Char) : Option Nat :=
  if '0' ≤ c ∧ c ≤ '9' then some (c.toNat - '0'.toNat)
  else if 'a' ≤ c ∧ c ≤ 'f' then some (c.toNat - 'a'.toNat + 10)
  else if 'A' ≤ c ∧ c ≤ 'F' then some (c.toNat - 'A'.toNat + 10)
  else none

/-- hexDigitsVal folds a digit list into a value, failing on the first
non-hexadecimal character. -/
def hexDigitsVal : List Char → Nat → Option Nat
  | [], acc => some acc
  | c :: rest, acc =>
    match hexDigitVal c with
    | some d => hexDigitsVal rest (acc * 16 + d)
    | none => none

/-- decDigitVal gives the value of one decimal digit character. -/
def decDigitVal (c : Char) : Option Nat :=
  if '0' ≤ c ∧ c ≤ '9' then some (c.toNat - '0'.toNat) else none

/-- decDigitsVal folds a digit list into a value, failing on the first
non-decimal character. -/
def decDigitsVal : List Char → Nat → Option Nat
  | [], acc => some acc
  | c :: rest, acc =>
    match decDigitVal c with
    | some d => decDigitsVal rest (acc * 10 + d)
    | none => none

/-- pyIntHex models CPython's `int(s, 16)` on the non-negative inputs this
module feeds it: an optional `0x`/`0X` marker followed by at least one
hexadecimal digit; anything else fails. -/
def pyIntHex (s : String) : Option Nat :=
  match s.data with
  | [] => none
  | '0' :: x :: rest =>
    if x = 'x' ∨ x = 'X' then
      if rest = [] then none else hexDigitsVal rest 0
    else hexDigitsVal s.data 0
  | cs => hexDigitsVal cs 0

/-- pyIntDec models CPython's `int(s, 10)` on the non-negative inputs this
module feeds it: at least one decimal digit. -/
def pyIntDec (s : String) : Option Nat :=
  match s.data with
  | [] => none
  | cs => decDigitsVal cs 0

/-- intHexMsg is the `ValueError` message of a failed `int(s, 16)`. -/
def intHexMsg (s : String) : String :=
  "invalid literal for int() with base 16: " ++ pyReprStr s

/-- intDecMsg is the `ValueError` message of a failed `int(s, 10)`. -/
def intDecMsg (s : String) : String :=
  "invalid literal for int() with base 10: " ++ pyReprStr s

/-- splitOnChar splits a character list at every occurrence of `sep`,
mirroring Python's `str.split(sep)`: it always returns at least one group,
and `n` separators give `n + 1` groups. -/
def splitOnChar (sep : Char) : List Char → List (List Char)
  | [] => [[]]
  | c :: cs =>
    let r := splitOnChar sep cs
    if c = sep then [] :: r
    else
      match r with
      | [] => [[c]]
      | g :: gs => (c :: g) :: gs

/-- Modelled from the spec: the register listing is "UTF-8 text,
line-delimited, comma-separated fields" (§6). csvRows models
`csv.reader(text.split("\n"), delimiter=",")` for such unquoted input: each
line becomes the list of its comma-separated fields, and an empty line
becomes the empty row, exactly as `csv.reader` yields no fields for it. The
Python `csv` module itself is an external dependency, not part of this tree. -/
def csvRows (s : String) : List (List String) :=
  (splitOnChar '\n' s.data).map fun line =>
    if line = [] then [] else (splitOnChar ',' line).map (fun cs => String.mk cs)

/-- Modelled from the spec: `nmigen_soc.memory.MemoryMap` is imported from
the vendored `thirdparty.nmigen_soc` package, which is not under the sources
given here. Per §3 of the spec a memory map is "an address range partitioned
into named ... resource regions, with a fixed data width ... and a fixed
address width", and it can be frozen, after which no further region
additions are allowed. Resources are kept as (name, address, size) triples
in insertion order. -/
structure MemoryMap where
  addr_width : Nat
  data_width : Nat
  resources : List (String × Nat × Nat)
  frozen : Bool
  deriving DecidableEq, Repr

/-- frozenMsg is the error reported when a frozen map is mutated. -/
def frozenMsg : String := "Memory map has been frozen"

/-- fitMsg is the error reported when a resource does not fit the map's
address space and extension was not requested. -/
def fitMsg : String := "Address range does not fit in address space"

/-- MemoryMap.endAddr is the first address past the last resource, used for
implicit placement of a resource added without an explicit address. -/
def MemoryMap.endAddr (m : MemoryMap) : Nat :=
  m.resources.foldl (fun acc r => max acc (r.2.1 + r.2.2)) 0

/-- Modelled from the spec: `MemoryMap.add_resource`. Per §4.4 a resource is
added "at the given address" with the given size in map-units, "using an
'extend' placement mode that grows the map's address space to fit rather
than requiring it pre-sized"; without extension the range must fit the
pre-sized address space. Per §3 a frozen map allows "no further region
additions". An omitted address places the resource at the end of the last
one. The spec leaves duplicate-name and overlap handling explicitly open
(§9), so this model does not check either. -/
def MemoryMap.add_resource (m : MemoryMap) (name : String) (addr : Option Nat)
    (size : Nat) (extend : Bool) : Except Err MemoryMap :=
  if m.frozen then .error (.valueError frozenMsg)
  else
    let a := addr.getD m.endAddr
    if a + size ≤ 2 ^ m.addr_width then
      .ok { m with resources := m.resources ++ [(name, a, size)] }
    else if extend then
      .ok { m with addr_width := max m.addr_width (bit_length (a + size - 1)),
                   resources := m.resources ++ [(name, a, size)] }
    else .error (.valueError fitMsg)

/-- MemoryMap.freeze marks the map frozen; further region additions fail. -/
def MemoryMap.freeze (m : MemoryMap) : MemoryMap := { m with frozen := true }

/-- PyMapValue models the dynamically typed argument of the Python
`memory_map` setters: either an actual MemoryMap or some other value,
identified only by its repr string. -/
inductive PyMapValue where
  | mm (m : MemoryMap)
  | other (r : String)
  deriving DecidableEq, Repr

/-- NativePort embeds the `NativePort` record of the source (its signal
layout is hardware-description machinery outside this embedding; the fields
kept are the ones the module's own logic reads): address width, data width,
the fixed granularity of 8, and the optional attached memory map. -/
structure NativePort where
  addr_width : Int
  data_width : Nat
  granularity : Nat
  _map : Option MemoryMap
  deriving DecidableEq, Repr

/-- portAddrWidthMsg is the `ValueError` message of `NativePort.__init__`
for a non-positive address width. -/
def portAddrWidthMsg (v : Int) : String :=
  "Address width must be a positive integer, not " ++ toString v

/-- portDataWidthMsg is the `ValueError` message of `NativePort.__init__`
for a data width that is not a positive power of two. -/
def portDataWidthMsg (v : Int) : String :=
  "Data width must be a positive power of two integer, not " ++ toString v

/-- NativePort.init embeds `NativePort.__init__` (litedram.py lines
304-336): it validates that the address width is a positive integer and the
data width a positive power of two (via `data_width & data_width - 1`), sets
the granularity to 8 and leaves the map unattached. The superclass `Record`
layout construction is nmigen machinery outside this embedding. -/
def NativePort.init (addr_width data_width : Int) : Except Err NativePort :=
  if addr_width ≤ 0 then .error (.valueError (portAddrWidthMsg addr_width))
  else if data_width ≤ 0 ∨ natLand data_width.toNat (data_width.toNat - 1) ≠ 0 then
    .error (.valueError (portDataWidthMsg data_width))
  else .ok { addr_width := addr_width, data_width := data_width.toNat,
             granularity := 8, _map := none }

/-- notMapMsg is the `TypeError` message of the `memory_map` setter for an
argument that is not a MemoryMap. -/
def notMapMsg (r : String) : String :=
  "Memory map must be an instance of MemoryMap, not " ++ r

/-- mapDataWidthMsg is the `ValueError` message of the `memory_map` setter
for a map whose data width is not the port granularity 8. -/
def mapDataWidthMsg (dw : Nat) : String :=
  "Memory map has data width " ++ toString dw ++
    ", which is not the same as native port granularity 8"

/-- mapAddrWidthMsg is the `ValueError` message of the `memory_map` setter
for a map whose address width differs from the port's. -/
def mapAddrWidthMsg (maw : Nat) (paw : Int) (gb : Nat) : String :=
  "Memory map has address width " ++ toString maw ++
    ", which is not the same as native port address width " ++
    toString (paw + (gb : Int)) ++ " (" ++ toString paw ++ " address bits + " ++
    toString gb ++ " granularity bits)"

/-- NativePort.set_memory_map embeds the `NativePort.memory_map` setter
(litedram.py lines 355-371): `TypeError` if the argument is not a MemoryMap,
`ValueError` if its data width is not 8, `ValueError` if its address width
is not `max(1, addr_width + log2_int(data_width // 8))`, otherwise the map
is frozen and stored. -/
def NativePort.set_memory_map (p : NativePort) (v : PyMapValue) :
    Except Err NativePort :=
  match v with
  | .other r => .error (.typeError (notMapMsg r))
  | .mm m =>
    if m.data_width ≠ 8 then .error (.valueError (mapDataWidthMsg m.data_width))
    else do
      let gb ← log2_int (p.data_width / 8)
      if (m.addr_width : Int) ≠ max 1 (p.addr_width + (gb : Int)) then
        .error (.valueError (mapAddrWidthMsg m.addr_width p.addr_width gb))
      else .ok { p with _map := some m.freeze }

/-- portNoMapMsg is the `AttributeError` message of the `memory_map` getter
of a port without an attached map (the port repr is elided). -/
def portNoMapMsg : String := "Native port does not have a memory map"

/-- NativePort.memory_map embeds the `NativePort.memory_map` getter
(litedram.py lines 338-353): `AttributeError` when no map is attached. -/
def NativePort.memory_map (p : NativePort) : Except Err MemoryMap :=
  match p._map with
  | none => .error (.attributeError portNoMapMsg)
  | some m => .ok m

/-- WishboneInterface is modelled from the spec: `wishbone.Interface` is
imported from the vendored `thirdparty.nmigen_soc` package, not under the
sources given here. Per §3/§4.4 of the spec the control bus carries an
address width, a data width, a granularity, and an optionally attached
memory map. Its signal fields are hardware machinery outside this
embedding. -/
structure WishboneInterface where
  addr_width : Int
  data_width : Nat
  granularity : Nat
  memory_map : Option MemoryMap
  deriving DecidableEq, Repr

/-- wbMapDataWidthMsg is the dimension-mismatch error of the wishbone map
attachment for a map whose data width is not the bus granularity. -/
def wbMapDataWidthMsg (dw : Nat) : String :=
  "Memory map data width " ++ toString dw ++ " is not the bus granularity"

/-- wbMapAddrWidthMsg is the dimension-mismatch error of the wishbone map
attachment for a map whose address width does not match the bus. -/
def wbMapAddrWidthMsg (maw : Nat) : String :=
  "Memory map address width " ++ toString maw ++ " does not match the bus"

/-- Modelled from the spec: attaching a memory map to the control bus
triggers "the §4.2 dimension check" (§4.4): the map's data width must equal
the bus granularity, and its address width must equal
`max(1, addr_width + log2(data_width / granularity))`; on success the map is
frozen and stored. -/
def WishboneInterface.set_memory_map (b : WishboneInterface) (m : MemoryMap) :
    Except Err WishboneInterface :=
  if m.data_width ≠ b.granularity then
    .error (.valueError (wbMapDataWidthMsg m.data_width))
  else do
    let gb ← log2_int (b.data_width / b.granularity)
    if (m.addr_width : Int) ≠ max 1 (b.addr_width + (gb : Int)) then
      .error (.valueError (wbMapAddrWidthMsg m.addr_width))
    else .ok { b with memory_map := some m.freeze }

/-- Config embeds the validated `Config` object of the source (litedram.py
lines 115-126): the stored fields after `Config.__init__` has accepted its
arguments. Numeric fields are kept as naturals since validation guarantees
positivity. -/
structure Config where
  memtype : String
  _rate : String
  module_name : String
  module_bytes : Nat
  module_ranks : Nat
  input_clk_freq : Nat
  user_clk_freq : Nat
  input_domain : String
  user_domain : String
  user_data_width : Nat
  cmd_buffer_depth : Nat
  csr_data_width : Nat
  deriving DecidableEq, Repr

/-- ConfigParams carries the arguments of `Config.__init__` before
validation. Numeric arguments are integers, so that the non-positive cases
the source rejects are representable; name-like arguments are strings, so
the `isinstance(..., str)` guards of the source are necessarily true here. -/
structure ConfigParams where
  memtype : String
  module_name : String
  module_bytes : Int
  module_ranks : Int
  input_clk_freq : Int
  user_clk_freq : Int
  input_domain : String
  user_domain : String
  user_data_width : Int
  cmd_buffer_depth : Int
  csr_data_width : Int
  deriving DecidableEq, Repr

/-- memtypeMsg is the `ValueError` message for an unsupported DRAM type. -/
def memtypeMsg (v : String) : String :=
  "Unsupported DRAM type, must be one of \"DDR2\", \"DDR3\" or \"DDR4\", not " ++
    pyReprStr v

/-- moduleBytesMsg is the `ValueError` message for a non-positive byte-group
count. -/
def moduleBytesMsg (v : Int) : String :=
  "Number of byte groups must be a positive integer, not " ++ toString v

/-- moduleRanksMsg is the `ValueError` message for a non-positive rank
count. -/
def moduleRanksMsg (v : Int) : String :=
  "Number of ranks must be a positive integer, not " ++ toString v

/-- inputClkMsg is the `ValueError` message for a non-positive input clock
frequency. -/
def inputClkMsg (v : Int) : String :=
  "Input clock frequency must be a positive integer, not " ++ toString v

/-- userClkMsg is the `ValueError` message for a non-positive user clock
frequency. -/
def userClkMsg (v : Int) : String :=
  "User clock frequency must be a positive integer, not " ++ toString v

/-- userDataWidthMsg is the `ValueError` message for a user data width
outside 8/16/32/64/128. -/
def userDataWidthMsg (v : Int) : String :=
  "User port data width must be one of 8, 16, 32, 64 or 128, not " ++ toString v

/-- cmdBufferDepthMsg is the `ValueError` message for a non-positive command
buffer depth. -/
def cmdBufferDepthMsg (v : Int) : String :=
  "Command buffer depth must be a positive integer, not " ++ toString v

/-- csrDataWidthMsg is the `ValueError` message for a CSR data width outside
8/16/32/64. -/
def csrDataWidthMsg (v : Int) : String :=
  "CSR data width must be one of 8, 16, 32, or 64, not " ++ toString v

/-- Config.init embeds `Config.__init__` (litedram.py lines 61-126): the
data rate is derived from the memory type (failing for anything outside
DDR2/DDR3/DDR4), then each field is validated in source order, failing fast
with a `ValueError` naming the field and value; on success all fields are
stored. The `isinstance(..., str)` checks on `module_name`, `input_domain`
and `user_domain` are necessarily true for `String` arguments and sit at
their source positions as comments. -/
def Config.init (p : ConfigParams) : Except Err Config :=
  match (if p.memtype = "DDR2" then some "1:2"
         else if p.memtype = "DDR3" ∨ p.memtype = "DDR4" then some "1:4"
         else none) with
  | none => .error (.valueError (memtypeMsg p.memtype))
  | some rate =>
    -- isinstance(module_name, str): necessarily true here
    if p.module_bytes ≤ 0 then .error (.valueError (moduleBytesMsg p.module_bytes))
    else if p.module_ranks ≤ 0 then .error (.valueError (moduleRanksMsg p.module_ranks))
    else if p.input_clk_freq ≤ 0 then .error (.valueError (inputClkMsg p.input_clk_freq))
    else if p.user_clk_freq ≤ 0 then .error (.valueError (userClkMsg p.user_clk_freq))
    -- isinstance(input_domain, str), isinstance(user_domain, str): necessarily true here
    else if ¬ (p.user_data_width = 8 ∨ p.user_data_width = 16 ∨ p.user_data_width = 32 ∨
               p.user_data_width = 64 ∨ p.user_data_width = 128) then
      .error (.valueError (userDataWidthMsg p.user_data_width))
    else if p.cmd_buffer_depth ≤ 0 then
      .error (.valueError (cmdBufferDepthMsg p.cmd_buffer_depth))
    else if ¬ (p.csr_data_width = 8 ∨ p.csr_data_width = 16 ∨ p.csr_data_width = 32 ∨
               p.csr_data_width = 64) then
      .error (.valueError (csrDataWidthMsg p.csr_data_width))
    else .ok { memtype := p.memtype, _rate := rate, module_name := p.module_name,
               module_bytes := p.module_bytes.toNat, module_ranks := p.module_ranks.toNat,
               input_clk_freq := p.input_clk_freq.toNat,
               user_clk_freq := p.user_clk_freq.toNat,
               input_domain := p.input_domain, user_domain := p.user_domain,
               user_data_width := p.user_data_width.toNat,
               cmd_buffer_depth := p.cmd_buffer_depth.toNat,
               csr_data_width := p.csr_data_width.toNat }

/-- SDRAMModule models the DRAM module description returned by the external
geometry provider (`litedram.modules`, an external package): its memory-type
tag, the bank/row/column bit counts of `geom_settings`, and the bank count. -/
structure SDRAMModule where
  memtype : String
  bankbits : Nat
  rowbits : Nat
  colbits : Nat
  nbanks : Nat
  deriving DecidableEq, Repr

/-- GeomProvider abstracts `getattr(litedram.modules, name)(clk_freq, rate)`:
the external geometry table, keyed by module name, user clock frequency and
data rate. -/
abbrev GeomProvider : Type := String → Nat → String → SDRAMModule

/-- Config.get_module embeds `Config.get_module` (litedram.py lines
135-149): it consults the external geometry provider with the module name,
user clock frequency and derived rate, asserts that the reported memory type
equals the configured one (a bare Python `assert`,
i.e. `AssertionError`), and returns the module description unchanged. -/
def Config.get_module (c : Config) (provider : GeomProvider) :
    Except Err SDRAMModule :=
  let module := provider c.module_name c.user_clk_freq c._rate
  if module.memtype = c.memtype then .ok module else .error .assertionError

/-- Core embeds the state of a `Core` instance (litedram.py lines 404-437):
its configuration, resolved name, derived size in bytes, user port, and the
control bus, absent until a successful build populates it. The optional pin
binding only affects `elaborate`, which is hardware machinery outside this
embedding. -/
structure Core where
  config : Config
  name : String
  size : Nat
  user_port : NativePort
  _ctrl_bus : Option WishboneInterface
  deriving DecidableEq, Repr

/-- Core.init embeds `Core.__init__` (litedram.py lines 404-437). The
`isinstance(config, Config)` guard is necessarily true here, and the name is
taken as an explicit string (the source's fallback to
`tracer.get_var_name` inspects the caller's frame, which has no counterpart
in this embedding; the spec itself directs implementations to require an
explicit name, §9). The body consults the geometry provider, derives
`size = module_bytes * 2 ** (bankbits + rowbits + colbits)` and the user
address width, constructs the user `NativePort`, eagerly populates its map
with one full-size resource, and leaves the control bus absent. -/
def Core.init (config : Config) (provider : GeomProvider) (name : String) :
    Except Err Core := do
  let module ← Config.get_module config provider
  let size := config.module_bytes *
    2 ^ (module.bankbits + module.rowbits + module.colbits)
  let nb ← log2_int module.nbanks
  let rk ← log2_int config.module_ranks
  let user_addr_width := module.rowbits + module.colbits + nb + max rk 1
  let gb ← log2_int (config.user_data_width / 8)
  let user_port ← NativePort.init ((user_addr_width : Int) - (gb : Int))
    (config.user_data_width : Int)
  let user_map : MemoryMap :=
    { addr_width := user_addr_width, data_width := 8, resources := [], frozen := false }
  let user_map ← user_map.add_resource "user_port_0" none size false
  let user_port ← user_port.set_memory_map (.mm user_map)
  .ok { config := config, name := name, size := size, user_port := user_port,
        _ctrl_bus := none }

/-- notReadyMsg is the `AttributeError` message of the `ctrl_bus` getter
before the control bus has been populated. -/
def notReadyMsg : String :=
  "Control bus memory map has not been populated. Core.build(do_build=True) must be called before accessing Core.ctrl_bus"

/-- Core.ctrl_bus embeds the `Core.ctrl_bus` getter (litedram.py lines
439-461): `AttributeError` before the control bus has been populated by a
build, the stored bus afterwards. -/
def Core.ctrl_bus (c : Core) : Except Err WishboneInterface :=
  match c._ctrl_bus with
  | none => .error (.attributeError notReadyMsg)
  | some b => .ok b

/-- indexMsg is the `IndexError` message of subscripting an empty string. -/
def indexMsg : String := "string index out of range"

/-- unpackMsg is the `ValueError` of unpacking a row that does not have
exactly five fields (CPython reports "not enough values to unpack" or "too
many values to unpack"; this model keeps a single message). -/
def unpackMsg : String := "cannot unpack row into 5 fields"

/-- procRow embeds the loop body of `Core._populate_ctrl_map` (litedram.py
lines 472-481) on one CSV row: empty rows and rows whose first field starts
with a comment marker are skipped (subscripting an empty first field raises
`IndexError`, as in Python); any other row is unpacked into exactly five
fields (raising `ValueError` otherwise); rows whose kind is exactly
"csr_register" have their address parsed in base 16 and size in base 10
(raising `ValueError` on malformed numbers) and are added to the map with
size scaled by `csr_data_width // map data width`, in extend mode; rows of
any other kind are skipped. -/
def procRow (csr_data_width : Nat) (m : MemoryMap) (row : List String) :
    Except Err MemoryMap :=
  match row with
  | [] => .ok m
  | f0 :: rest =>
    if f0 = "" then .error (.indexError indexMsg)
    else if f0.front = '#' then .ok m
    else
      match rest with
      | [res_name, addr, size, attrs] =>
        if f0 = "csr_register" then
          match pyIntHex addr with
          | none => .error (.valueError (intHexMsg addr))
          | some a =>
            match pyIntDec size with
            | none => .error (.valueError (intDecMsg size))
            | some s =>
              m.add_resource res_name (some a) (s * csr_data_width / m.data_width) true
        else .ok m
      | _ => .error (.valueError unpackMsg)

/-- BuildProducts models the artifact bundle: named text artifacts fetched
by filename (spec §6). `nmigen.build.run.BuildProducts` is an external
dependency; a missing artifact fails (modelled as `OSError`). The
`isinstance(build_products, BuildProducts)` guard of the source is
necessarily true here. -/
abbrev BuildProducts : Type := List (String × String)

/-- missingProductMsg is the error of fetching an absent build product. -/
def missingProductMsg (name : String) : String := "missing build product " ++ name

/-- BuildProducts.get models `BuildProducts.get(filename, mode="t")`:
fetch a named text artifact, failing when it is absent. -/
def BuildProducts.get (ps : BuildProducts) (name : String) : Except Err String :=
  match ps.lookup name with
  | some s => .ok s
  | none => .error (.osError (missingProductMsg name))

/-- Core.populate_ctrl_map embeds `Core._populate_ctrl_map` (litedram.py
lines 463-489): it creates a fresh byte-granular map of address width 1,
fetches `{name}_csr.csv` from the build products, folds `procRow` over its
CSV rows, then constructs the control bus with address width
`map address width - log2_int(csr_data_width // map data width)` and
granularity equal to the map data width, and attaches the map to it. -/
def Core.populate_ctrl_map (c : Core) (build_products : BuildProducts) :
    Except Err Core := do
  let ctrl_map : MemoryMap :=
    { addr_width := 1, data_width := 8, resources := [], frozen := false }
  let csr_csv ← build_products.get (c.name ++ "_csr.csv")
  let ctrl_map ← (csvRows csr_csv).foldlM
    (fun m row => procRow c.config.csr_data_width m row) ctrl_map
  let gb ← log2_int (c.config.csr_data_width / ctrl_map.data_width)
  let bus : WishboneInterface :=
    { addr_width := (ctrl_map.addr_width : Int) - (gb : Int),
      data_width := c.config.csr_data_width,
      granularity := ctrl_map.data_width, memory_map := none }
  let bus ← bus.set_memory_map ctrl_map
  .ok { c with _ctrl_bus := some bus }

/-- BuildPlan models the unexecuted build plan (spec §6: "the rendered set
of files and the script used to invoke the external generator"). The
template rendering itself is delegated to the external jinja2 library and
is not embedded; the plan keeps the script name the source computes and the
simulation flag that parameterizes rendering. -/
structure BuildPlan where
  script : String
  sim : Bool
  deriving DecidableEq, Repr

/-- Builder embeds the `Builder` orchestrator (litedram.py lines 705-706):
its only state is the namespace of names claimed by previous prepares,
modelled as a duplicate-free list standing for the Python set. -/
structure Builder where
  «namespace» : List String
  deriving DecidableEq, Repr

/-- nameConflictMsg is the `ValueError` message of a namespace conflict in
`Builder.prepare`. -/
def nameConflictMsg (name : String) : String :=
  "LiteDRAM core name '" ++ name ++
    "' has already been used for a previous build. Building this instance may overwrite previous build products. Passing `name_force=True` will disable this check"

/-- insertName adds a name to the namespace, keeping set semantics. -/
def insertName (n : String) (ns : List String) : List String :=
  if n ∈ ns then ns else ns ++ [n]

/-- Builder.prepare embeds `Builder.prepare` (litedram.py lines 708-770):
if the core's name is already in the namespace and no override was given it
fails with a `ValueError`; otherwise the name is added to the namespace
unconditionally and a build plan named `build_{core.name}` is returned. The
`isinstance(core, Core)` guard is necessarily true here, and the template
rendering into the plan's files is external jinja2 machinery. -/
def Builder.prepare (b : Builder) (core : Core) (sim : Bool)
    (name_force : Bool) : Except Err (Builder × BuildPlan) :=
  if core.name ∈ b.«namespace» ∧ ¬ name_force then
    .error (.valueError (nameConflictMsg core.name))
  else
    .ok ({ «namespace» := insertName core.name b.«namespace» },
         { script := "build_" ++ core.name, sim := sim })

/-- BuildOutcome distinguishes the two return shapes of `Core.build`: the
unexecuted plan when `do_build=False`, the build products otherwise. -/
inductive BuildOutcome where
  | plan (p : BuildPlan)
  | products (ps : BuildProducts)
  deriving DecidableEq, Repr

/-- Core.build embeds `Core.build` (litedram.py lines 491-524): it prepares
a plan through the builder (the `isinstance(builder, Builder)` guard is
necessarily true here); with `do_build=False` it returns the plan,
changing nothing on the core; otherwise it executes the plan through the
external local executor (`plan.execute_local`, abstracted as the
`execLocal` collaborator), populates the control-bus map from the products
and returns them. The updated core and builder states are returned
alongside the outcome. -/
def Core.build (self : Core) (builder : Builder)
    (execLocal : BuildPlan → BuildProducts) (do_build : Bool) (sim : Bool)
    (name_force : Bool) : Except Err (Core × Builder × BuildOutcome) := do
  let pr ← Builder.prepare builder self sim name_force
  if do_build = false then .ok (self, pr.1, .plan pr.2)
  else do
    let products := execLocal pr.2
    let self' ← Core.populate_ctrl_map self products
    .ok (self', pr.1, .products products)

/-- ctrlResources projects, from a core, the resource list of the memory map
attached to its control bus, when both exist. -/
def ctrlResources (c : Core) : Option (List (String × Nat × Nat)) :=
  (c._ctrl_bus.bind (fun b => b.memory_map)).map (fun m => m.resources)

/-- exceptDecEq decides equality of `Except` values componentwise; used to
evaluate the embedding on concrete inputs. -/
instance exceptDecEq {e a : Type} [DecidableEq e] [DecidableEq a] :
    DecidableEq (Except e a)
  | .ok x, .ok y =>
    if h : x = y then .isTrue (by rw [h])
    else .isFalse (by intro hc; cases hc; exact h rfl)
  | .error x, .error y =>
    if h : x = y then .isTrue (by rw [h])
    else .isFalse (by intro hc; cases hc; exact h rfl)
  | .ok _, .error _ => .isFalse (by intro hc; cases hc)
  | .error _, .ok _ => .isFalse (by intro hc; cases hc)

/-- pV is a valid ECP5-style base configuration request: DDR3, 2 byte
groups, 1 rank, 100 MHz input clock, 70 MHz user clock, and the source's
default domains and widths. -/
def pV : ConfigParams :=
  { memtype := "DDR3", module_name := "MT41K256M16", module_bytes := 2,
    module_ranks := 1, input_clk_freq := 100000000, user_clk_freq := 70000000,
    input_domain := "litedram_input", user_domain := "litedram_user",
    user_data_width := 128, cmd_buffer_depth := 16, csr_data_width := 32 }

/-- cfgV is the validated configuration produced from `pV`. -/
def cfgV : Config :=
  { memtype := "DDR3", _rate := "1:4", module_name := "MT41K256M16",
    module_bytes := 2, module_ranks := 1, input_clk_freq := 100000000,
    user_clk_freq := 70000000, input_domain := "litedram_input",
    user_domain := "litedram_user", user_data_width := 128,
    cmd_buffer_depth := 16, csr_data_width := 32 }

/-- provV is a geometry provider reporting a DDR3 module with 3 bank bits,
13 row bits, 10 column bits and 8 banks. -/
def provV : GeomProvider := fun _ _ _ =>
  { memtype := "DDR3", bankbits := 3, rowbits := 13, colbits := 10, nbanks := 8 }

/-- provBad is a geometry provider whose reported memory type, DDR2, cannot
match a DDR3 configuration. -/
def provBad : GeomProvider := fun _ _ _ =>
  { memtype := "DDR2", bankbits := 3, rowbits := 13, colbits := 10, nbanks := 8 }

/-- cV is the core built from `cfgV` and `provV` under the name "dram":
capacity 2 * 2^26 bytes, user port of address width 27 - 4 = 23 with an
eagerly populated full-size map, control bus absent. -/
def cV : Core :=
  { config := cfgV, name := "dram", size := 134217728,
    user_port := { addr_width := 23, data_width := 128, granularity := 8,
                   _map := some { addr_width := 27, data_width := 8,
                                  resources := [("user_port_0", 0, 134217728)],
                                  frozen := true } },
    _ctrl_bus := none }

/-- listingV is a register listing with one row of the recognized
"csr_register" kind at hexadecimal address 0x10 and size 1 CSR unit. -/
def listingV : String := "csr_register,ctrl_status,0x10,1,ro"

/-- prodV is the build-product bundle carrying `listingV` under the filename
the core named "dram" reads. -/
def prodV : BuildProducts := [("dram_csr.csv", listingV)]

/-- exV is a local build executor that returns `prodV` for any plan. -/
def exV : BuildPlan → BuildProducts := fun _ => prodV

/-- busV is the control bus populated from `listingV` with CSR data width
32: the map grew to address width 5 to fit bytes 16..19, and the bus fronts
it with address width 5 - 2 = 3. -/
def busV : WishboneInterface :=
  { addr_width := 3, data_width := 32, granularity := 8,
    memory_map := some { addr_width := 5, data_width := 8,
                         resources := [("ctrl_status", 16, 4)], frozen := true } }

/-- cV' is `cV` after a successful build populated its control bus. -/
def cV' : Core := { cV with _ctrl_bus := some busV }

/-- bld0 is a fresh builder with an empty namespace. -/
def bld0 : Builder := { «namespace» := [] }

/-- bld1 is the builder after "dram" has been claimed. -/
def bld1 : Builder := { «namespace» := ["dram"] }

/-- rV is the result of a full `Core.build` of `cV` through `bld0` and
`exV`: the populated core, the builder with "dram" claimed, and the
products. -/
def rV : Core × Builder × BuildOutcome := (cV', bld1, .products prodV)

/-- port0 is a bare native port of address width 2 and data width 8; its
matching map address width is max(1, 2 + 0) = 2. -/
def port0 : NativePort :=
  { addr_width := 2, data_width := 8, granularity := 8, _map := none }

/-- map0 is an empty, unfrozen byte-map of address width 2, matching
port0's dimension check. -/
def map0 : MemoryMap :=
  { addr_width := 2, data_width := 8, resources := [], frozen := false }

/-- map1 is a second conforming map, distinct from map0, used to exhibit a
successful replacement attach. -/
def map1 : MemoryMap :=
  { addr_width := 2, data_width := 8, resources := [("foo", 0, 4)], frozen := false }

/-- mapBadDw is a map whose data width 16 violates the granularity check. -/
def mapBadDw : MemoryMap :=
  { addr_width := 2, data_width := 16, resources := [], frozen := false }

/-- mapBadAw is a map whose address width 3 violates port0's dimension
check. -/
def mapBadAw : MemoryMap :=
  { addr_width := 3, data_width := 8, resources := [], frozen := false }

/-- port1 is port0 after map0 has been attached (and thereby frozen). -/
def port1 : NativePort := { port0 with _map := some map0.freeze }

/-- listingC2 is the spec's example listing row, whose kind field is the
literal tag "register". -/
def listingC2 : String := "register,ctrl_status,0x10,1,ro"

/-- prodC2 is the build-product bundle carrying listingC2 for "dram". -/
def prodC2 : BuildProducts := [("dram_csr.csv", listingC2)]

/-- busC2 is the control bus produced from listingC2: no row was mapped, so
the map stays empty at address width 1 and the bus address width is
1 - 2 = -1. -/
def busC2 : WishboneInterface :=
  { addr_width := -1, data_width := 32, granularity := 8,
    memory_map := some { addr_width := 1, data_width := 8, resources := [],
                         frozen := true } }

/-- cC2 is cV populated from listingC2. -/
def cC2 : Core := { cV with _ctrl_bus := some busC2 }

/-- listingC2am is a listing with a comment row, a "csr_register" row and a
row of an unrecognized kind. -/
def listingC2am : String :=
  "# comment\ncsr_register,ctrl_status,0x10,1,ro\nother_kind,foo,0x0,1,ro"

/-- prodC2am is the build-product bundle carrying listingC2am for "dram". -/
def prodC2am : BuildProducts := [("dram_csr.csv", listingC2am)]

/-- ctrlMap0 is the fresh control map `_populate_ctrl_map` starts from. -/
def ctrlMap0 : MemoryMap :=
  { addr_width := 1, data_width := 8, resources := [], frozen := false }

/-- listingC7 pairs a well-formed "csr_register" row with the spec's
malformed example row, whose kind field is the literal tag "register". -/
def listingC7 : String := "csr_register,ctrl_status,0x10,1,ro\nregister,bad_addr,ZZ,1,ro"

/-- prodC7 is the build-product bundle carrying listingC7 for "dram". -/
def prodC7 : BuildProducts := [("dram_csr.csv", listingC7)]

/-- listingBadAddr is a single "csr_register" row whose address field ZZ is
not base-16 parseable. -/
def listingBadAddr : String := "csr_register,bad_addr,ZZ,1,ro"

/-- pBadMem is pV with the unsupported memory type DDR5. -/
def pBadMem : ConfigParams := { pV with memtype := "DDR5" }

/-- pBadUdw is pV with the unsupported user data width 48. -/
def pBadUdw : ConfigParams := { pV with user_data_width := 48 }

/-- pR3 is pV with the valid (positive) but non-power-of-two rank count 3. -/
def pR3 : ConfigParams := { pV with module_ranks := 3 }

/-- cfgR3 is the validated configuration produced from pR3. -/
def cfgR3 : Config := { cfgV with module_ranks := 3 }

/-- exBindOk reduces a monadic bind on a successful `Except` value. -/
lemma exBindOk {a b : Type} (x : a) (f : a → Except Err b) :
    (Except.ok x >>= f) = f x := rfl

/-- exBindErr propagates an `Except` error through a monadic bind. -/
lemma exBindErr {a b : Type} (e : Err) (f : a → Except Err b) :
    ((Except.error e : Except Err a) >>= f) = .error e := rfl

/-- mem_insertName_self: a name just inserted is in the namespace. -/
lemma mem_insertName_self (n : String) (ns : List String) : n ∈ insertName n ns := by
  unfold insertName
  split
  · assumption
  · simp

/-- core_init_ctrl_none: a freshly constructed core has no control bus. -/
lemma core_init_ctrl_none (cfg : Config) (prov : GeomProvider) (nm : String)
    (c : Core) (h : Core.init cfg prov nm = .ok c) : c._ctrl_bus = none := by
  unfold Core.init at h
  cases hg : Config.get_module cfg prov with
  | error e => rw [hg, exBindErr] at h; cases h
  | ok g =>
    rw [hg, exBindOk] at h
    cases hnb : log2_int g.nbanks with
    | error e => rw [hnb, exBindErr] at h; cases h
    | ok nb =>
      rw [hnb, exBindOk] at h
      cases hrk : log2_int cfg.module_ranks with
      | error e => rw [hrk, exBindErr] at h; cases h
      | ok rk =>
        rw [hrk, exBindOk] at h
        cases hgb : log2_int (cfg.user_data_width / 8) with
        | error e => rw [hgb, exBindErr] at h; cases h
        | ok gb =>
          rw [hgb, exBindOk] at h
          cases hp : NativePort.init _ _ with
          | error e => rw [hp, exBindErr] at h; cases h
          | ok port =>
            rw [hp, exBindOk] at h
            dsimp only at h
            cases ha : MemoryMap.add_resource _ _ _ _ _ with
            | error e => rw [ha, exBindErr] at h; cases h
            | ok um =>
              rw [ha, exBindOk] at h
              cases hs : NativePort.set_memory_map _ _ with
              | error e => rw [hs, exBindErr] at h; cases h
              | ok port' =>
                rw [hs, exBindOk] at h
                cases h
                rfl

/-- populate_sets_bus: a successful populate stores some control bus. -/
lemma populate_sets_bus (c : Core) (ps : BuildProducts) (c' : Core)
    (h : Core.populate_ctrl_map c ps = .ok c') : ∃ bus, c'._ctrl_bus = some bus := by
  unfold Core.populate_ctrl_map at h
  cases hl : ps.get (c.name ++ "_csr.csv") with
  | error e => rw [hl, exBindErr] at h; cases h
  | ok s =>
    rw [hl, exBindOk] at h
    dsimp only at h
    cases hf : (csvRows s).foldlM (fun m row => procRow c.config.csr_data_width m row)
        { addr_width := 1, data_width := 8, resources := [], frozen := false } with
    | error e => rw [hf, exBindErr] at h; cases h
    | ok m =>
      rw [hf, exBindOk] at h
      cases hgb : log2_int (c.config.csr_data_width / m.data_width) with
      | error e => rw [hgb, exBindErr] at h; cases h
      | ok gb =>
        rw [hgb, exBindOk] at h
        cases hs : WishboneInterface.set_memory_map _ _ with
        | error e => rw [hs, exBindErr] at h; cases h
        | ok bus =>
          rw [hs, exBindOk] at h
          cases h
          exact ⟨bus, rfl⟩

/-- Claim C1: accessing a core's control bus before a build has executed
fails with the `AttributeError`-kind not-ready error — in particular every
freshly constructed core fails this way — and after `Core.build` with
`do_build=True` has completed successfully (which parses the register
listing into the control map), the getter returns the populated control-bus
object that was stored. -/
theorem ctrl_bus_gated_by_build :
    (∀ (cfg : Config) (prov : GeomProvider) (nm : String) (c : Core),
       Core.init cfg prov nm = .ok c →
       Core.ctrl_bus c = .error (.attributeError notReadyMsg)) ∧
    (∀ (c : Core) (bld : Builder) (ex : BuildPlan → BuildProducts)
       (sim force : Bool) (r : Core × Builder × BuildOutcome),
       Core.build c bld ex true sim force = .ok r →
       ∃ bus, r.1._ctrl_bus = some bus ∧ Core.ctrl_bus r.1 = .ok bus) := by
  constructor
  · intro cfg prov nm c h
    have hn := core_init_ctrl_none cfg prov nm c h
    unfold Core.ctrl_bus
    rw [hn]
  · intro c bld ex sim force r h
    unfold Core.build at h
    cases hp : Builder.prepare bld c sim force with
    | error e => rw [hp, exBindErr] at h; cases h
    | ok pr =>
      rw [hp, exBindOk] at h
      simp only [if_neg] at h
      cases hpop : Core.populate_ctrl_map c (ex pr.2) with
      | error e => rw [hpop, exBindErr] at h; cases h
      | ok c2 =>
        rw [hpop, exBindOk] at h
        cases h
        obtain ⟨bus, hb⟩ := populate_sets_bus c (ex pr.2) c2 hpop
        refine ⟨bus, hb, ?_⟩
        unfold Core.ctrl_bus
        rw [hb]

/-- Witness for C1: the fresh core cV fails control-bus access, and a full
build of cV through a fresh builder yields rV whose core has a readable
control bus. -/
theorem ctrl_bus_gated_by_build_witness :
    Core.ctrl_bus cV = .error (.attributeError notReadyMsg) ∧
    (∃ bus, rV.1._ctrl_bus = some bus ∧ Core.ctrl_bus rV.1 = .ok bus) :=
  ⟨ctrl_bus_gated_by_build.1 cfgV provV "dram" cV (by decide),
   ctrl_bus_gated_by_build.2 cV bld0 exV false false rV (by decide)⟩

/-- Claim C3: preparing a core whose name is already claimed in the
builder's namespace fails with the `ValueError`-kind name-conflict error
unless `name_force` is passed; with the override it succeeds and the name
remains claimed, so a third attempt with the same name behaves identically
to the second (fails without override, succeeds with it); and every
successful prepare adds the core's name to the namespace unconditionally. -/
theorem prepare_name_conflict (b : Builder) (core : Core)
    (h : core.name ∈ b.«namespace») :
    (∀ sim, Builder.prepare b core sim false =
       .error (.valueError (nameConflictMsg core.name))) ∧
    (∀ sim, ∃ b' plan, Builder.prepare b core sim true = .ok (b', plan) ∧
       core.name ∈ b'.«namespace» ∧
       (∀ sim2 (core2 : Core), core2.name = core.name →
          Builder.prepare b' core2 sim2 false =
            .error (.valueError (nameConflictMsg core2.name))) ∧
       (∀ sim2 (core2 : Core), core2.name = core.name →
          ∃ b'' plan2, Builder.prepare b' core2 sim2 true = .ok (b'', plan2) ∧
            core2.name ∈ b''.«namespace»)) ∧
    (∀ (b0 : Builder) (c0 : Core) sim force b' plan,
       Builder.prepare b0 c0 sim force = .ok (b', plan) →
       c0.name ∈ b'.«namespace») := by
  refine ⟨?_, ?_, ?_⟩
  · intro sim
    unfold Builder.prepare
    rw [if_pos ⟨h, by simp⟩]
  · intro sim
    refine ⟨{ «namespace» := insertName core.name b.«namespace» },
            { script := "build_" ++ core.name, sim := sim }, ?_, ?_, ?_, ?_⟩
    · unfold Builder.prepare
      rw [if_neg (by simp)]
    · exact mem_insertName_self core.name b.«namespace»
    · intro sim2 core2 h2
      unfold Builder.prepare
      rw [if_pos ⟨by rw [h2]; exact mem_insertName_self core.name b.«namespace», by simp⟩]
    · intro sim2 core2 h2
      refine ⟨{ «namespace» := insertName core2.name (insertName core.name b.«namespace») },
              { script := "build_" ++ core2.name, sim := sim2 }, ?_, ?_⟩
      · unfold Builder.prepare
        rw [if_neg (by simp)]
      · exact mem_insertName_self core2.name _
  · intro b0 c0 sim force b' plan hp
    unfold Builder.prepare at hp
    split at hp
    · cases hp
    · cases hp
      exact mem_insertName_self c0.name b0.«namespace»

/-- Witness for C3: instantiated on bld1, whose namespace already holds
"dram", and the core cV of that name. -/
theorem prepare_name_conflict_witness :
    (∀ sim, Builder.prepare bld1 cV sim false =
       .error (.valueError (nameConflictMsg cV.name))) ∧
    (∀ sim, ∃ b' plan, Builder.prepare bld1 cV sim true = .ok (b', plan) ∧
       cV.name ∈ b'.«namespace» ∧
       (∀ sim2 (core2 : Core), core2.name = cV.name →
          Builder.prepare b' core2 sim2 false =
            .error (.valueError (nameConflictMsg core2.name))) ∧
       (∀ sim2 (core2 : Core), core2.name = cV.name →
          ∃ b'' plan2, Builder.prepare b' core2 sim2 true = .ok (b'', plan2) ∧
            core2.name ∈ b''.«namespace»)) ∧
    (∀ (b0 : Builder) (c0 : Core) sim force b' plan,
       Builder.prepare b0 c0 sim force = .ok (b', plan) →
       c0.name ∈ b'.«namespace») :=
  prepare_name_conflict bld1 cV (by decide)

/-- Claim C10: a `Core.build` call with `do_build=False` that succeeds
returns the unexecuted plan and leaves the core itself unchanged — in
particular a control bus that was unpopulated stays unpopulated and
accessing it still fails — yet the core's name is already claimed in the
builder's namespace, so preparing any core with the same name afterwards
conflicts even though no build was executed. -/
theorem build_without_execute (c : Core) (bld : Builder)
    (ex : BuildPlan → BuildProducts) (sim force : Bool)
    (r : Core × Builder × BuildOutcome)
    (h : Core.build c bld ex false sim force = .ok r) :
    r.1 = c ∧ (∃ p, r.2.2 = .plan p) ∧ c.name ∈ r.2.1.«namespace» ∧
    (c._ctrl_bus = none →
       Core.ctrl_bus r.1 = .error (.attributeError notReadyMsg)) ∧
    (∀ (c2 : Core) sim2, c2.name = c.name →
       Builder.prepare r.2.1 c2 sim2 false =
         .error (.valueError (nameConflictMsg c2.name))) := by
  unfold Core.build at h
  cases hp : Builder.prepare bld c sim force with
  | error e => rw [hp, exBindErr] at h; cases h
  | ok pr =>
    rw [hp, exBindOk] at h
    simp only [if_pos] at h
    cases h
    have hmem : c.name ∈ pr.1.«namespace» := by
      unfold Builder.prepare at hp
      split at hp
      · cases hp
      · cases hp
        exact mem_insertName_self c.name bld.«namespace»
    refine ⟨rfl, ⟨pr.2, rfl⟩, hmem, ?_, ?_⟩
    · intro hn
      unfold Core.ctrl_bus
      rw [hn]
    · intro c2 sim2 h2
      unfold Builder.prepare
      rw [if_pos ⟨by rw [h2]; exact hmem, by simp⟩]

/-- Witness for C10: building cV through a fresh builder without executing
returns the plan, leaves cV untouched and unpopulated, and claims "dram". -/
theorem build_without_execute_witness :
    ∃ r, Core.build cV bld0 exV false false false = .ok r ∧
      (r.1 = cV ∧ (∃ p, r.2.2 = .plan p) ∧ cV.name ∈ r.2.1.«namespace» ∧
       (cV._ctrl_bus = none →
          Core.ctrl_bus r.1 = .error (.attributeError notReadyMsg)) ∧
       (∀ (c2 : Core) sim2, c2.name = cV.name →
          Builder.prepare r.2.1 c2 sim2 false =
            .error (.valueError (nameConflictMsg c2.name)))) :=
  ⟨(cV, bld1, .plan { script := "build_dram", sim := false }), by decide,
   build_without_execute cV bld0 exV false false
     (cV, bld1, .plan { script := "build_dram", sim := false }) (by decide)⟩

/-- Claim C5: the `memory_map` setter fails with a `TypeError`-kind error
when the argument is not a MemoryMap; fails with a `ValueError`-kind
dimension-mismatch error exactly when the map's data width is not 8 or its
address width is not `max(1, port address width + log2_int(port data width
// 8))`; and otherwise freezes the map and stores it on the port. -/
theorem memory_map_setter_spec (p : NativePort) (gb : Nat)
    (hgb : log2_int (p.data_width / 8) = .ok gb) :
    (∀ r, NativePort.set_memory_map p (.other r) =
       .error (.typeError (notMapMsg r))) ∧
    (∀ m : MemoryMap, m.data_width ≠ 8 →
       NativePort.set_memory_map p (.mm m) =
         .error (.valueError (mapDataWidthMsg m.data_width))) ∧
    (∀ m : MemoryMap, m.data_width = 8 →
       (m.addr_width : Int) ≠ max 1 (p.addr_width + (gb : Int)) →
       NativePort.set_memory_map p (.mm m) =
         .error (.valueError (mapAddrWidthMsg m.addr_width p.addr_width gb))) ∧
    (∀ m : MemoryMap, m.data_width = 8 →
       (m.addr_width : Int) = max 1 (p.addr_width + (gb : Int)) →
       NativePort.set_memory_map p (.mm m) = .ok { p with _map := some m.freeze }) := by
  refine ⟨fun r => rfl, ?_, ?_, ?_⟩
  · intro m hm
    unfold NativePort.set_memory_map
    dsimp only
    rw [if_pos hm]
  · intro m hm ha
    unfold NativePort.set_memory_map
    dsimp only
    rw [if_neg (by rw [hm]; exact fun hc => hc rfl)]
    rw [hgb, exBindOk]
    rw [if_pos ha]
  · intro m hm ha
    unfold NativePort.set_memory_map
    dsimp only
    rw [if_neg (by rw [hm]; exact fun hc => hc rfl)]
    rw [hgb, exBindOk]
    rw [if_neg (by rw [ha]; exact fun hc => hc rfl)]

/-- Witness for C5: on port0, a non-map argument, a 16-bit-wide map, a
3-bit-address map and the conforming map0 behave as stated. -/
theorem memory_map_setter_spec_witness :
    NativePort.set_memory_map port0 (.other "1") =
      .error (.typeError (notMapMsg "1")) ∧
    NativePort.set_memory_map port0 (.mm mapBadDw) =
      .error (.valueError (mapDataWidthMsg 16)) ∧
    NativePort.set_memory_map port0 (.mm mapBadAw) =
      .error (.valueError (mapAddrWidthMsg 3 2 0)) ∧
    NativePort.set_memory_map port0 (.mm map0) = .ok port1 :=
  ⟨(memory_map_setter_spec port0 0 (by decide)).1 "1",
   (memory_map_setter_spec port0 0 (by decide)).2.1 mapBadDw (by decide),
   (memory_map_setter_spec port0 0 (by decide)).2.2.1 mapBadAw (by decide) (by decide),
   (memory_map_setter_spec port0 0 (by decide)).2.2.2 map0 (by decide) (by decide)⟩

/-- Counterexample to C6: after map0 has been successfully attached to
port0, attaching the conforming map1 to the same port succeeds again (and
replaces the stored map), refuting the claim that every subsequent
attachment attempt on the port fails. -/
theorem second_attach_succeeds :
    NativePort.set_memory_map port0 (.mm map0) = .ok port1 ∧
    NativePort.set_memory_map port1 (.mm map1) =
      .ok { port1 with _map := some map1.freeze } := by
  constructor <;> decide

/-- Claim C6 (amended): after a map has been successfully attached to a
port, the stored map is frozen — every region addition to it fails — but
attachment is not singular: a further map satisfying the same dimension
checks is accepted and replaces the stored one. -/
theorem attached_map_frozen_not_singular (p p' : NativePort) (m : MemoryMap)
    (gb : Nat) (hgb : log2_int (p.data_width / 8) = .ok gb)
    (h : NativePort.set_memory_map p (.mm m) = .ok p') :
    p'._map = some m.freeze ∧ m.freeze.frozen = true ∧
    (∀ n a s e, (m.freeze).add_resource n a s e = .error (.valueError frozenMsg)) ∧
    (∀ m2 : MemoryMap, m2.data_width = 8 →
       (m2.addr_width : Int) = max 1 (p'.addr_width + (gb : Nat)) →
       NativePort.set_memory_map p' (.mm m2) = .ok { p' with _map := some m2.freeze }) := by
  have hp' : p' = { p with _map := some m.freeze } := by
    unfold NativePort.set_memory_map at h
    dsimp only at h
    split at h
    · cases h
    · rw [hgb, exBindOk] at h
      split at h
      · cases h
      · cases h; rfl
  subst hp'
  refine ⟨rfl, rfl, ?_, ?_⟩
  · intro n a s e
    simp [MemoryMap.add_resource, MemoryMap.freeze]
  · intro m2 hm2 ha2
    unfold NativePort.set_memory_map
    dsimp only
    rw [if_neg (by rw [hm2]; exact fun hc => hc rfl)]
    rw [hgb, exBindOk]
    rw [if_neg (by rw [ha2]; exact fun hc => hc rfl)]

/-- Witness for C6 (amended): instantiated on port0, port1 and map0. -/
theorem attached_map_frozen_not_singular_witness :
    port1._map = some map0.freeze ∧ map0.freeze.frozen = true ∧
    (∀ n a s e, (map0.freeze).add_resource n a s e = .error (.valueError frozenMsg)) ∧
    (∀ m2 : MemoryMap, m2.data_width = 8 →
       (m2.addr_width : Int) = max 1 (port1.addr_width + (0 : Nat)) →
       NativePort.set_memory_map port1 (.mm m2) = .ok { port1 with _map := some m2.freeze }) :=
  attached_map_frozen_not_singular port0 port1 map0 0 (by decide) (by decide)

/-- Counterexample to C2: populating the control bus of cV (csr data width
32, map data width 8) from the spec's example row
"register,ctrl_status,0x10,1,ro" succeeds but maps nothing — the resource
list of the resulting control map is empty, because the kind tag the code
recognizes is the literal "csr_register", not "register". -/
theorem register_row_not_mapped :
    Core.populate_ctrl_map cV prodC2 = .ok cC2 ∧ ctrlResources cC2 = some [] := by
  constructor <;> decide

/-- Claim C2 (amended): populating the control bus maps exactly the
five-field data rows whose kind field is the literal tag "csr_register" —
each added at its base-16-parsed address with size scaled by
`csr_data_width // map data width` in extend mode — while empty rows,
comment rows and five-field rows of any other kind are skipped; in
particular "csr_register,ctrl_status,0x10,1,ro" with control data width 32
and map data width 8 yields exactly the 4-map-unit resource ctrl_status at
address 16. -/
theorem csr_register_rows_mapped :
    (∀ w m, procRow w m [] = .ok m) ∧
    (∀ w (m : MemoryMap) (f0 : String) rest, f0 ≠ "" → f0.front = '#' →
       procRow w m (f0 :: rest) = .ok m) ∧
    (∀ w (m : MemoryMap) (k n a s t : String), k ≠ "csr_register" → k ≠ "" →
       k.front ≠ '#' → procRow w m [k, n, a, s, t] = .ok m) ∧
    (∀ w (m : MemoryMap) (n a s t : String) av sv,
       pyIntHex a = some av → pyIntDec s = some sv →
       procRow w m ["csr_register", n, a, s, t] =
         m.add_resource n (some av) (sv * w / m.data_width) true) ∧
    (Core.populate_ctrl_map cV prodC2am = .ok cV' ∧
       ctrlResources cV' = some [("ctrl_status", 16, 4)]) := by
  refine ⟨fun w m => rfl, ?_, ?_, ?_, by decide, by decide⟩
  · intro w m f0 rest h0 hh
    unfold procRow
    dsimp only
    rw [if_neg h0, if_pos hh]
  · intro w m k n a s t hk h0 hh
    simp [procRow, h0, hh, hk]
  · intro w m n a s t av sv ha hs
    simp [procRow, ha, hs]
    intro hc
    exact absurd hc (by decide)

/-- Witness for C2 (amended): a comment row and an unrecognized-kind row are
skipped while a "csr_register" row at 0x10 of size 1 is added scaled to 4
map units. -/
theorem csr_register_rows_mapped_witness :
    procRow 32 ctrlMap0 ["# note"] = .ok ctrlMap0 ∧
    procRow 32 ctrlMap0 ["other_kind", "foo", "0x0", "1", "ro"] = .ok ctrlMap0 ∧
    procRow 32 ctrlMap0 ["csr_register", "ctrl_status", "0x10", "1", "ro"] =
      ctrlMap0.add_resource "ctrl_status" (some 16) (1 * 32 / ctrlMap0.data_width) true :=
  ⟨csr_register_rows_mapped.2.1 32 ctrlMap0 "# note" [] (by decide) (by decide),
   csr_register_rows_mapped.2.2.1 32 ctrlMap0 "other_kind" "foo" "0x0" "1" "ro"
     (by decide) (by decide) (by decide),
   csr_register_rows_mapped.2.2.2.1 32 ctrlMap0 "ctrl_status" "0x10" "1" "ro" 16 1
     (by decide) (by decide)⟩

/-- Counterexample to C7: populating the control bus of cV from a listing
that contains the spec's malformed example row "register,bad_addr,ZZ,1,ro"
succeeds — the row's kind tag "register" is not the recognized
"csr_register", so the row is skipped before its address is ever parsed and
no error is raised. -/
theorem malformed_register_row_ignored :
    Core.populate_ctrl_map cV prodC7 = .ok cV' ∧
    ctrlResources cV' = some [("ctrl_status", 16, 4)] := by
  constructor <;> decide

/-- Claim C7 (amended): a malformed data row does fail the populate step
when it is of the forms the code actually parses: any non-comment row with
a field count other than five fails the unpack, and a "csr_register" row
with a non-base-16 address or non-decimal size fails the integer parse with
a `ValueError` carrying the offending literal — e.g. the row
"csr_register,bad_addr,ZZ,1,ro" — and a failed populate leaves the control
bus unpopulated, so access still fails with the not-ready error. -/
theorem populate_malformed_csr_row_fails :
    (∀ c : Core, c._ctrl_bus = none →
       Core.populate_ctrl_map c [(c.name ++ "_csr.csv", listingBadAddr)] =
         .error (.valueError (intHexMsg "ZZ")) ∧
       Core.ctrl_bus c = .error (.attributeError notReadyMsg)) ∧
    (∀ w (m : MemoryMap) (f0 : String) rest, f0 ≠ "" → f0.front ≠ '#' →
       (f0 :: rest).length ≠ 5 →
       procRow w m (f0 :: rest) = .error (.valueError unpackMsg)) ∧
    (∀ w (m : MemoryMap) (n a s t : String), pyIntHex a = none →
       procRow w m ["csr_register", n, a, s, t] = .error (.valueError (intHexMsg a))) ∧
    (∀ w (m : MemoryMap) (n a s t : String) av, pyIntHex a = some av →
       pyIntDec s = none →
       procRow w m ["csr_register", n, a, s, t] = .error (.valueError (intDecMsg s))) := by
  refine ⟨?_, ?_, ?_, ?_⟩
  · intro c hc
    constructor
    · unfold Core.populate_ctrl_map
      have hget : BuildProducts.get [(c.name ++ "_csr.csv", listingBadAddr)]
          (c.name ++ "_csr.csv") = .ok listingBadAddr := by
        unfold BuildProducts.get
        simp [List.lookup]
      rw [hget, exBindOk]
      dsimp only
      have hrow : (csvRows listingBadAddr) =
          [["csr_register", "bad_addr", "ZZ", "1", "ro"]] := by decide
      rw [hrow]
      have hstep : procRow c.config.csr_data_width
          { addr_width := 1, data_width := 8, resources := [], frozen := false }
          ["csr_register", "bad_addr", "ZZ", "1", "ro"] =
          .error (.valueError (intHexMsg "ZZ")) := by
        have hz : pyIntHex "ZZ" = none := by decide
        simp [procRow, hz]
        intro hc2
        exact absurd hc2 (by decide)
      simp only [List.foldlM, hstep, exBindErr]
    · unfold Core.ctrl_bus
      rw [hc]
  · intro w m f0 rest h0 hh hl
    rcases rest with _ | ⟨a, _ | ⟨b, _ | ⟨c, _ | ⟨d, _ | ⟨e, rest2⟩⟩⟩⟩⟩ <;>
      simp [procRow, h0, hh]
    simp at hl
  · intro w m n a s t ha
    simp [procRow, ha]
    intro hc
    exact absurd hc (by decide)
  · intro w m n a s t av ha hs
    simp [procRow, ha, hs]
    intro hc
    exact absurd hc (by decide)

/-- Witness for C7 (amended): on cV a "csr_register" row with address ZZ
fails populate and leaves the bus inaccessible; a three-field row fails the
unpack; bad address and bad size literals fail the integer parses. -/
theorem populate_malformed_csr_row_fails_witness :
    (Core.populate_ctrl_map cV [(cV.name ++ "_csr.csv", listingBadAddr)] =
       .error (.valueError (intHexMsg "ZZ")) ∧
     Core.ctrl_bus cV = .error (.attributeError notReadyMsg)) ∧
    procRow 32 ctrlMap0 ["csr_register", "x", "0x0"] = .error (.valueError unpackMsg) ∧
    procRow 32 ctrlMap0 ["csr_register", "x", "ZZ", "1", "ro"] =
      .error (.valueError (intHexMsg "ZZ")) ∧
    procRow 32 ctrlMap0 ["csr_register", "x", "0x0", "y", "ro"] =
      .error (.valueError (intDecMsg "y")) :=
  ⟨populate_malformed_csr_row_fails.1 cV (by decide),
   populate_malformed_csr_row_fails.2.1 32 ctrlMap0 "csr_register" ["x", "0x0"]
     (by decide) (by decide) (by decide),
   populate_malformed_csr_row_fails.2.2.1 32 ctrlMap0 "x" "ZZ" "1" "ro" (by decide),
   populate_malformed_csr_row_fails.2.2.2 32 ctrlMap0 "x" "0x0" "y" "ro" 0
     (by decide) (by decide)⟩

/-- rate_some: a supported memory type yields a data rate. -/
lemma rate_some (p : ConfigParams)
    (hm : p.memtype = "DDR2" ∨ p.memtype = "DDR3" ∨ p.memtype = "DDR4") :
    ∃ rate, (if p.memtype = "DDR2" then some "1:2"
       else if p.memtype = "DDR3" ∨ p.memtype = "DDR4" then some "1:4"
       else none) = some rate := by
  rcases hm with hm | hm | hm
  · exact ⟨"1:2", by rw [if_pos hm]⟩
  · refine ⟨"1:4", ?_⟩
    rw [if_neg (by rw [hm]; decide), if_pos (Or.inl hm)]
  · refine ⟨"1:4", ?_⟩
    rw [if_neg (by rw [hm]; decide), if_pos (Or.inr hm)]

/-- Claim C8: for every invalid configuration field value — memory type
outside DDR2/DDR3/DDR4, non-positive byte-group count, rank count, input or
user clock frequency or command-buffer depth, user data width outside
8/16/32/64/128, CSR data width outside 8/16/32/64 — `Config.__init__` fails
with a `ValueError`-kind error whose message names the offending field and
value, detected fail-fast on the first violation in the fixed source order
(each conjunct assumes exactly the earlier checks passed), and a fully
validated parameter set yields a constructed configuration. -/
theorem config_validation_fail_fast (p : ConfigParams) :
    (¬ (p.memtype = "DDR2" ∨ p.memtype = "DDR3" ∨ p.memtype = "DDR4") →
       Config.init p = .error (.valueError (memtypeMsg p.memtype))) ∧
    ((p.memtype = "DDR2" ∨ p.memtype = "DDR3" ∨ p.memtype = "DDR4") →
     p.module_bytes ≤ 0 →
       Config.init p = .error (.valueError (moduleBytesMsg p.module_bytes))) ∧
    ((p.memtype = "DDR2" ∨ p.memtype = "DDR3" ∨ p.memtype = "DDR4") →
     0 < p.module_bytes → p.module_ranks ≤ 0 →
       Config.init p = .error (.valueError (moduleRanksMsg p.module_ranks))) ∧
    ((p.memtype = "DDR2" ∨ p.memtype = "DDR3" ∨ p.memtype = "DDR4") →
     0 < p.module_bytes → 0 < p.module_ranks → p.input_clk_freq ≤ 0 →
       Config.init p = .error (.valueError (inputClkMsg p.input_clk_freq))) ∧
    ((p.memtype = "DDR2" ∨ p.memtype = "DDR3" ∨ p.memtype = "DDR4") →
     0 < p.module_bytes → 0 < p.module_ranks → 0 < p.input_clk_freq →
     p.user_clk_freq ≤ 0 →
       Config.init p = .error (.valueError (userClkMsg p.user_clk_freq))) ∧
    ((p.memtype = "DDR2" ∨ p.memtype = "DDR3" ∨ p.memtype = "DDR4") →
     0 < p.module_bytes → 0 < p.module_ranks → 0 < p.input_clk_freq →
     0 < p.user_clk_freq →
     ¬ (p.user_data_width = 8 ∨ p.user_data_width = 16 ∨ p.user_data_width = 32 ∨
        p.user_data_width = 64 ∨ p.user_data_width = 128) →
       Config.init p = .error (.valueError (userDataWidthMsg p.user_data_width))) ∧
    ((p.memtype = "DDR2" ∨ p.memtype = "DDR3" ∨ p.memtype = "DDR4") →
     0 < p.module_bytes → 0 < p.module_ranks → 0 < p.input_clk_freq →
     0 < p.user_clk_freq →
     (p.user_data_width = 8 ∨ p.user_data_width = 16 ∨ p.user_data_width = 32 ∨
      p.user_data_width = 64 ∨ p.user_data_width = 128) →
     p.cmd_buffer_depth ≤ 0 →
       Config.init p = .error (.valueError (cmdBufferDepthMsg p.cmd_buffer_depth))) ∧
    ((p.memtype = "DDR2" ∨ p.memtype = "DDR3" ∨ p.memtype = "DDR4") →
     0 < p.module_bytes → 0 < p.module_ranks → 0 < p.input_clk_freq →
     0 < p.user_clk_freq →
     (p.user_data_width = 8 ∨ p.user_data_width = 16 ∨ p.user_data_width = 32 ∨
      p.user_data_width = 64 ∨ p.user_data_width = 128) →
     0 < p.cmd_buffer_depth →
     ¬ (p.csr_data_width = 8 ∨ p.csr_data_width = 16 ∨ p.csr_data_width = 32 ∨
        p.csr_data_width = 64) →
       Config.init p = .error (.valueError (csrDataWidthMsg p.csr_data_width))) ∧
    ((p.memtype = "DDR2" ∨ p.memtype = "DDR3" ∨ p.memtype = "DDR4") →
     0 < p.module_bytes → 0 < p.module_ranks → 0 < p.input_clk_freq →
     0 < p.user_clk_freq →
     (p.user_data_width = 8 ∨ p.user_data_width = 16 ∨ p.user_data_width = 32 ∨
      p.user_data_width = 64 ∨ p.user_data_width = 128) →
     0 < p.cmd_buffer_depth →
     (p.csr_data_width = 8 ∨ p.csr_data_width = 16 ∨ p.csr_data_width = 32 ∨
      p.csr_data_width = 64) →
       ∃ c, Config.init p = .ok c) := by
  refine ⟨?_, ?_, ?_, ?_, ?_, ?_, ?_, ?_, ?_⟩
  · intro hm
    unfold Config.init
    push_neg at hm
    obtain ⟨h2, h3, h4⟩ := hm
    rw [if_neg h2, if_neg (by simp [h3, h4])]
  · intro hm hb
    obtain ⟨rate, hr⟩ := rate_some p hm
    unfold Config.init
    rw [hr]
    dsimp only
    rw [if_pos hb]
  · intro hm hb hk
    obtain ⟨rate, hr⟩ := rate_some p hm
    unfold Config.init
    rw [hr]
    dsimp only
    rw [if_neg (by omega), if_pos hk]
  · intro hm hb hk hi
    obtain ⟨rate, hr⟩ := rate_some p hm
    unfold Config.init
    rw [hr]
    dsimp only
    rw [if_neg (by omega), if_neg (by omega), if_pos hi]
  · intro hm hb hk hi hu
    obtain ⟨rate, hr⟩ := rate_some p hm
    unfold Config.init
    rw [hr]
    dsimp only
    rw [if_neg (by omega), if_neg (by omega), if_neg (by omega), if_pos hu]
  · intro hm hb hk hi hu hw
    obtain ⟨rate, hr⟩ := rate_some p hm
    unfold Config.init
    rw [hr]
    dsimp only
    rw [if_neg (by omega), if_neg (by omega), if_neg (by omega), if_neg (by omega),
        if_pos hw]
  · intro hm hb hk hi hu hw hd
    obtain ⟨rate, hr⟩ := rate_some p hm
    unfold Config.init
    rw [hr]
    dsimp only
    rw [if_neg (by omega), if_neg (by omega), if_neg (by omega), if_neg (by omega),
        if_neg (not_not_intro hw), if_pos hd]
  · intro hm hb hk hi hu hw hd hs
    obtain ⟨rate, hr⟩ := rate_some p hm
    unfold Config.init
    rw [hr]
    dsimp only
    rw [if_neg (by omega), if_neg (by omega), if_neg (by omega), if_neg (by omega),
        if_neg (not_not_intro hw), if_neg (by omega), if_pos hs]
  · intro hm hb hk hi hu hw hd hs
    obtain ⟨rate, hr⟩ := rate_some p hm
    unfold Config.init
    rw [hr]
    dsimp only
    rw [if_neg (by omega), if_neg (by omega), if_neg (by omega), if_neg (by omega),
        if_neg (not_not_intro hw), if_neg (by omega), if_neg (not_not_intro hs)]
    exact ⟨_, rfl⟩

/-- Witness for C8: memory type DDR5 fails the first check, user data
width 48 fails its check once the earlier fields pass, and pV validates. -/
theorem config_validation_fail_fast_witness :
    Config.init pBadMem = .error (.valueError (memtypeMsg "DDR5")) ∧
    Config.init pBadUdw = .error (.valueError (userDataWidthMsg 48)) ∧
    (∃ c, Config.init pV = .ok c) :=
  ⟨(config_validation_fail_fast pBadMem).1 (by decide),
   (config_validation_fail_fast pBadUdw).2.2.2.2.2.1 (by decide) (by decide)
     (by decide) (by decide) (by decide) (by decide),
   (config_validation_fail_fast pV).2.2.2.2.2.2.2.2 (by decide) (by decide)
     (by decide) (by decide) (by decide) (by decide) (by decide) (by decide)⟩

/-- Claim C9: `Config.get_module` fails with the `AssertionError`-kind
internal-inconsistency error whenever the geometry provider's reported
memory type differs from the configured one, and otherwise returns the
provider's module description unchanged. -/
theorem get_module_checks_memtype (cfg : Config) (provider : GeomProvider) :
    ((provider cfg.module_name cfg.user_clk_freq cfg._rate).memtype ≠ cfg.memtype →
       Config.get_module cfg provider = .error .assertionError) ∧
    ((provider cfg.module_name cfg.user_clk_freq cfg._rate).memtype = cfg.memtype →
       Config.get_module cfg provider =
         .ok (provider cfg.module_name cfg.user_clk_freq cfg._rate)) := by
  constructor
  · intro h
    unfold Config.get_module
    rw [if_neg h]
  · intro h
    unfold Config.get_module
    rw [if_pos h]

/-- Witness for C9: cfgV against the mismatching provider provBad and the
matching provider provV. -/
theorem get_module_checks_memtype_witness :
    Config.get_module cfgV provBad = .error .assertionError ∧
    Config.get_module cfgV provV = .ok (provV cfgV.module_name cfgV.user_clk_freq cfgV._rate) :=
  ⟨(get_module_checks_memtype cfgV provBad).1 (by decide),
   (get_module_checks_memtype cfgV provV).2 (by decide)⟩

/-- Counterexample to C4: the parameter set pR3 with rank count 3 is a
valid configuration (rank count only has to be a positive integer), and the
provider provV returns a well-formed DDR3 geometry, yet `Core.__init__`
fails — `log2_int(module_ranks)` raises on the non-power-of-two 3 — so core
construction does not succeed for every valid configuration and geometry. -/
theorem valid_config_core_init_fails :
    Config.init pR3 = .ok cfgR3 ∧
    Core.init cfgR3 provV "dram" = .error (.valueError (log2IntMsg 3)) := by
  constructor <;> decide

/-- config_init_user_data_width: a validated configuration's user data
width is one of the five accepted values. -/
lemma config_init_user_data_width (p : ConfigParams) (cfg : Config)
    (h : Config.init p = .ok cfg) :
    cfg.user_data_width = 8 ∨ cfg.user_data_width = 16 ∨ cfg.user_data_width = 32 ∨
    cfg.user_data_width = 64 ∨ cfg.user_data_width = 128 := by
  unfold Config.init at h
  split at h
  · cases h
  · split_ifs at h with h1 h2 h3 h4 h5 h6 h7
    all_goals try cases h
    case _ =>
      rcases h5 with hu | hu | hu | hu | hu <;> rw [hu] <;> simp

/-- Claim C4 (amended): for every valid configuration and every geometry
result whose memory type matches the configured one, whose bank count and
rank count are powers of two (`log2_int` succeeds on both), whose derived
port address width is positive, and whose capacity fits the user map's
address space, `Core.__init__` succeeds and the derived size equals
byte-groups × 2^(bank bits + row bits + column bits) exactly. -/
theorem core_init_capacity (p : ConfigParams) (cfg : Config)
    (hcfg : Config.init p = .ok cfg) (provider : GeomProvider) (nm : String)
    (g : SDRAMModule)
    (hg : provider cfg.module_name cfg.user_clk_freq cfg._rate = g)
    (hmt : g.memtype = cfg.memtype)
    (nb rk gb : Nat)
    (hnb : log2_int g.nbanks = .ok nb)
    (hrk : log2_int cfg.module_ranks = .ok rk)
    (hgb : log2_int (cfg.user_data_width / 8) = .ok gb)
    (hpos : gb < g.rowbits + g.colbits + nb + max rk 1)
    (hfit : cfg.module_bytes * 2 ^ (g.bankbits + g.rowbits + g.colbits) ≤
            2 ^ (g.rowbits + g.colbits + nb + max rk 1)) :
    ∃ c, Core.init cfg provider nm = .ok c ∧
      c.size = cfg.module_bytes * 2 ^ (g.bankbits + g.rowbits + g.colbits) := by
  have hgm : Config.get_module cfg provider = .ok g := by
    unfold Config.get_module
    rw [hg, if_pos hmt]
  have hudw := config_init_user_data_width p cfg hcfg
  unfold Core.init
  rw [hgm, exBindOk, hnb, exBindOk, hrk, exBindOk, hgb, exBindOk]
  have hport : NativePort.init
      (((g.rowbits + g.colbits + nb + max rk 1 : Nat) : Int) - (gb : Int))
      ((cfg.user_data_width : Nat) : Int) =
      .ok { addr_width := ((g.rowbits + g.colbits + nb + max rk 1 : Nat) : Int) - (gb : Int),
            data_width := cfg.user_data_width, granularity := 8, _map := none } := by
    unfold NativePort.init
    rw [if_neg (by omega), if_neg (by rcases hudw with h | h | h | h | h <;> rw [h] <;> decide)]
    simp
  rw [hport, exBindOk]
  dsimp only
  have hadd : MemoryMap.add_resource
      { addr_width := g.rowbits + g.colbits + nb + max rk 1, data_width := 8,
        resources := [], frozen := false } "user_port_0" none
      (cfg.module_bytes * 2 ^ (g.bankbits + g.rowbits + g.colbits)) false =
      .ok { addr_width := g.rowbits + g.colbits + nb + max rk 1, data_width := 8,
            resources := [("user_port_0", 0,
              cfg.module_bytes * 2 ^ (g.bankbits + g.rowbits + g.colbits))],
            frozen := false } := by
    unfold MemoryMap.add_resource
    rw [if_neg (by simp)]
    simp only [MemoryMap.endAddr, List.foldl, Option.getD_none, zero_add]
    rw [if_pos hfit]
    simp
  rw [hadd, exBindOk]
  have hset : NativePort.set_memory_map
      { addr_width := ((g.rowbits + g.colbits + nb + max rk 1 : Nat) : Int) - (gb : Int),
        data_width := cfg.user_data_width, granularity := 8, _map := none }
      (.mm { addr_width := g.rowbits + g.colbits + nb + max rk 1, data_width := 8,
             resources := [("user_port_0", 0,
               cfg.module_bytes * 2 ^ (g.bankbits + g.rowbits + g.colbits))],
             frozen := false }) =
      .ok { addr_width := ((g.rowbits + g.colbits + nb + max rk 1 : Nat) : Int) - (gb : Int),
            data_width := cfg.user_data_width, granularity := 8,
            _map := some { addr_width := g.rowbits + g.colbits + nb + max rk 1,
                           data_width := 8,
                           resources := [("user_port_0", 0,
                             cfg.module_bytes * 2 ^ (g.bankbits + g.rowbits + g.colbits))],
                           frozen := true } } := by
    unfold NativePort.set_memory_map
    dsimp only
    rw [if_neg (by simp), hgb, exBindOk, if_neg (by omega)]
    rfl
  rw [hset, exBindOk]
  exact ⟨_, rfl, rfl⟩

/-- Witness for C4 (amended): instantiated on pV/cfgV and provV's DDR3
geometry, giving capacity 2 * 2^26. -/
theorem core_init_capacity_witness :
    ∃ c, Core.init cfgV provV "dram" = .ok c ∧
      c.size = cfgV.module_bytes * 2 ^ (3 + 13 + 10) :=
  core_init_capacity pV cfgV (by decide) provV "dram"
    { memtype := "DDR3", bankbits := 3, rowbits := 13, colbits := 10, nbanks := 8 }
    (by decide) (by decide) 3 0 4 (by decide) (by decide) (by decide) (by decide)
    (by decide)

